import Mathlib

/-!
Shallow embedding of `src/server.js` (attendance notification dispatcher).

The program watches a Firestore collection `notification`; for each `added`
change it enriches the record with the recipient user document and the
subject name, formats the record date, acquires an OAuth bearer token, and
sends a data-only FCM message over HTTPS.

Modelling conventions:
- JavaScript string fields that may be missing are `Option String`;
  JS truthiness of such a field is `truthy` (false iff missing or empty).
- The Firestore database is a pair of pure lookup functions (`DB`).
- All observable actions (console.log / console.error lines and the HTTPS
  POST to the FCM gateway) are collected into a `List Effect`, in program
  order. Awaited external calls that can fail (the OAuth exchange
  `jwtClient.authorize()`) are passed in as an `Except` value describing
  the behaviour of the environment on this event.
- The HTTP response handling (lines 140-158 of the source) runs in a
  callback after `sendVisibleNotification` has produced its effects; it is
  modelled by `classifyResponse`, and `runPipeline` wires the two phases
  together for a single event.
-/

namespace AttendanceApp

/-- A calendar date, the payload of a Firestore timestamp after `.toDate()`. -/
structure SDate where
  year : Nat
  month : Nat
  day : Nat
deriving DecidableEq

/-- The field map of a document of the `notification` collection
(`change.doc.data()`, source lines 34-35 and 64). -/
structure NotificationDoc where
  uid : Option String
  subjectId : Option String
  status : Option String
  dateTime : Option SDate
deriving DecidableEq

/-- A document change delivered by `onSnapshot` (source line 32). -/
structure Change where
  type : String
  doc : NotificationDoc
deriving DecidableEq

/-- A document of the `users` collection (source lines 49-52). -/
structure UserDoc where
  fcmToken : Option String
  image_1 : Option String
  link_1 : Option String
deriving DecidableEq

/-- A document of a user's `subjects` subcollection (source line 61). -/
structure SubjectDoc where
  name : Option String
deriving DecidableEq

/-- The Firestore lookups the handler performs:
`db.collection(users).doc(uid)` and
`db.collection(users).doc(uid).collection(subjects).doc(subjectId)`;
`none` models a document with `exists == false`. -/
structure DB where
  users : String → Option UserDoc
  subjects : String → String → Option SubjectDoc

/-- The fields of `serviceAccountKey.json` that the program reads
(source lines 90, 91, 131). -/
structure ServiceAccount where
  client_email : String
  private_key : String
  project_id : String
deriving DecidableEq

/-- The result of `jwtClient.authorize()` (source line 95). -/
structure Tokens where
  access_token : String
deriving DecidableEq

/-- JS truthiness of an optional string field: false iff the field is
missing (`undefined`) or the empty string. -/
def truthy : Option String → Bool
  | none => false
  | some s => !s.isEmpty

/-- The string value of an optional field at a use site that follows a
truthiness guard (a missing field never reaches such a site). -/
def jstr (o : Option String) : String := o.getD ""

/-- JS `o || d` on an optional string: the default `d` when the field is
missing or empty (source lines 51-52). -/
def jsOr (o : Option String) (d : String) : String :=
  match o with
  | none => d
  | some s => if s.isEmpty then d else s

/-- The `data` object of the FCM message (source lines 112-117). -/
structure FcmData where
  title : String
  body : String
  image : String
  link : String
deriving DecidableEq

/-- The inner `message` object (source lines 110-121): a data-only message,
no `notification` field is ever present. -/
structure FcmMessage where
  token : String
  data : FcmData
  androidPriority : String
deriving DecidableEq

/-- The HTTPS POST issued by `https.request` (source lines 127-161):
endpoint options plus the JSON body `\x7bmessage: ...\x7d`. -/
structure FcmRequest where
  hostname : String
  path : String
  authorization : String
  message : FcmMessage
deriving DecidableEq

/-- An observable action of the program: a `console.log` line, a
`console.error` line, or the gateway POST. -/
inductive Effect where
  | log : String → Effect
  | logError : String → Effect
  | httpPost : FcmRequest → Effect
deriving DecidableEq

/-- Whether an effect is a log line (of either severity). -/
def Effect.isLogLine : Effect → Bool
  | .log _ => true
  | .logError _ => true
  | .httpPost _ => false

/-- Whether an effect is the gateway POST. -/
def Effect.isPost : Effect → Bool
  | .httpPost _ => true
  | _ => false

/-- The gateway POSTs contained in an effect trace, in order. -/
def postsOf (effs : List Effect) : List FcmRequest :=
  effs.filterMap fun e => match e with
    | .httpPost r => some r
    | _ => none

/-- English month abbreviation, as produced by
`toLocaleDateString(en-IN, \x7bmonth: short\x7d)`. -/
def monthAbbrev : Nat → String
  | 1 => "Jan" | 2 => "Feb" | 3 => "Mar" | 4 => "Apr"
  | 5 => "May" | 6 => "Jun" | 7 => "Jul" | 8 => "Aug"
  | 9 => "Sep" | 10 => "Oct" | 11 => "Nov" | 12 => "Dec"
  | _ => ""

/-- Two-digit zero-padded rendering of a day number. -/
def pad2 (n : Nat) : String := if n < 10 then "0" ++ toString n else toString n

/-- `dateTime.toLocaleDateString(en-IN, \x7bday: 2-digit, month: short,
year: numeric\x7d)` (source lines 65-69): day month-abbreviation year,
space separated. -/
def formatEnIN (d : SDate) : String :=
  pad2 d.day ++ " " ++ monthAbbrev d.month ++ " " ++ toString d.year

/-- Subject-name resolution (source lines 60-61):
`subjectDoc.exists ? subjectDoc.data().name || subjectId : subjectId`. -/
def resolveSubjectName (db : DB) (uid subjectId : String) : String :=
  match db.subjects uid subjectId with
  | some sd => jsOr sd.name subjectId
  | none => subjectId

/-- `sendVisibleNotification` (source lines 84-166). The `auth` argument is
the behaviour of `jwtClient.authorize()`; a failure there is the only throw
site inside the `try`, and lands in the `catch` of lines 163-165. The
effects stop at issuing the request; the response callback is modelled
separately by `classifyResponse`. -/
def sendVisibleNotification (sa : ServiceAccount) (auth : Except String Tokens)
    (userId fcmToken status subjectName date imageUrl clickLink : String) :
    List Effect :=
  Effect.log "🔄 Getting access token..." ::
  match auth with
  | .error e =>
      [Effect.logError ("❌ Error sending notification to " ++ userId ++ ": " ++ e)]
  | .ok tokens =>
      Effect.log "✅ Access token obtained" ::
      let notificationTitle := "Attendance Update"
      let notificationBody :=
        "Marked " ++ status ++ " for " ++ subjectName ++ " on " ++ date
      if imageUrl.isEmpty then
        [Effect.log "⚠️ No image available, skipping notification"]
      else
        let message : FcmMessage :=
          { token := fcmToken
            data :=
              { title := notificationTitle
                body := notificationBody
                image := imageUrl
                link := if clickLink.isEmpty then "" else clickLink }
            androidPriority := "high" }
        [Effect.log ("🖼️ Sending data-only message with image: " ++ imageUrl),
         Effect.httpPost
           { hostname := "fcm.googleapis.com"
             path := "/v1/projects/" ++ sa.project_id ++ "/messages:send"
             authorization := "Bearer " ++ tokens.access_token
             message := message }]

/-- The per-change handler of the `onSnapshot` callback
(source lines 32-78). -/
def handleChange (db : DB) (sa : ServiceAccount) (auth : Except String Tokens)
    (now : SDate) (change : Change) : List Effect :=
  if change.type = "added" then
    let data := change.doc
    if !truthy data.uid || !truthy data.subjectId || !truthy data.status then []
    else
      Effect.log ("🔔 New notification for " ++ jstr data.uid ++ ": " ++
        jstr data.status ++ " - " ++ jstr data.subjectId) ::
      match db.users (jstr data.uid) with
      | none => [Effect.log ("❌ User " ++ jstr data.uid ++ " not found")]
      | some userData =>
        let imageUrl := jsOr userData.image_1 ""
        let clickLink := jsOr userData.link_1 ""
        if !truthy userData.fcmToken then
          [Effect.log ("❌ No FCM token for user " ++ jstr data.uid)]
        else
          let subjectName :=
            resolveSubjectName db (jstr data.uid) (jstr data.subjectId)
          let dateTime := data.dateTime.getD now
          let formattedDate := formatEnIN dateTime
          sendVisibleNotification sa auth (jstr data.uid)
            (jstr userData.fcmToken) (jstr data.status) subjectName
            formattedDate imageUrl clickLink
  else []

/-- `snapshot.docChanges().forEach(...)` (source line 32): every change of a
batch is handled independently, and the effects are concatenated in batch
order. -/
def processSnapshot (db : DB) (sa : ServiceAccount) (auth : Except String Tokens)
    (now : SDate) : List Change → List Effect
  | [] => []
  | c :: cs =>
      handleChange db sa auth now c ++ processSnapshot db sa auth now cs

/-- The HTTP outcome observed by the request: either a response with a
status code and accumulated body, or a transport-level error event
(source lines 140-158). -/
structure GatewayResponse where
  statusCode : Nat
  body : String
deriving DecidableEq

/-- Either a gateway response or an `error` event on the request. -/
inductive TransportOutcome where
  | response : GatewayResponse → TransportOutcome
  | transportError : String → TransportOutcome
deriving DecidableEq

/-- The response classification callbacks (source lines 140-158):
`res.statusCode === 200` logs success with the recipient id, any other
status logs the code and response body, and an `error` event on the
request logs the error message. -/
def classifyResponse (userId : String) : TransportOutcome → List Effect
  | .response res =>
      if res.statusCode = 200 then
        [Effect.log ("✅ Data message sent to " ++ userId)]
      else
        [Effect.log ("❌ FCM Error Status: " ++ toString res.statusCode ++
          ", Response: " ++ res.body)]
  | .transportError e =>
      [Effect.logError ("❌ FCM Request failed for " ++ userId ++ ": " ++ e)]

/-- A full single-event run: the synchronous effects of the handler,
followed (when a POST was issued) by the asynchronous response
classification for the given transport outcome. -/
def runPipeline (db : DB) (sa : ServiceAccount) (auth : Except String Tokens)
    (now : SDate) (change : Change) (outcome : TransportOutcome) : List Effect :=
  let effs := handleChange db sa auth now change
  effs ++
    (if effs.any Effect.isPost then
      classifyResponse (jstr change.doc.uid) outcome
    else [])

/-! Concrete fixtures used by witnesses and counterexamples, following the
scenario of §8 of the design document. -/

/-- A complete recipient profile. -/
def exUser : UserDoc :=
  { fcmToken := some "tok1", image_1 := some "img.png", link_1 := none }

/-- A recipient profile with a token but no image. -/
def exUserNoImg : UserDoc :=
  { fcmToken := some "tok1", image_1 := none, link_1 := none }

/-- A database holding user `u1` (complete profile) and subject `s1`
named `Maths`. -/
def exDB : DB :=
  { users := fun s => if s = "u1" then some exUser else none
    subjects := fun u s =>
      if u = "u1" && s = "s1" then some { name := some "Maths" } else none }

/-- A database holding user `u1` without an image. -/
def exDBNoImg : DB :=
  { users := fun s => if s = "u1" then some exUserNoImg else none
    subjects := fun _ _ => none }

/-- A database holding the complete user `u1` but no subject documents. -/
def exDBNoSubject : DB :=
  { users := fun s => if s = "u1" then some exUser else none
    subjects := fun _ _ => none }

/-- A concrete service account. -/
def exSA : ServiceAccount :=
  { client_email := "svc@example.iam", private_key := "KEY", project_id := "proj1" }

/-- A concrete bearer token. -/
def exTokens : Tokens := { access_token := "at1" }

/-- A concrete wall-clock date. -/
def exNow : SDate := { year := 2024, month := 3, day := 5 }

/-- A well-formed added change for `u1`, `s1`, status `Present`, with no
record timestamp. -/
def exChange : Change :=
  { type := "added"
    doc := { uid := some "u1", subjectId := some "s1", status := some "Present",
             dateTime := none } }

/-- An added change whose record is missing the `status` field. -/
def exChangeNoStatus : Change :=
  { type := "added"
    doc := { uid := some "u1", subjectId := some "s1", status := none,
             dateTime := none } }

/-- A well-formed added change carrying the record timestamp 2024-03-05. -/
def exChangeWithDate : Change :=
  { type := "added"
    doc := { uid := some "u1", subjectId := some "s1", status := some "Present",
             dateTime := some { year := 2024, month := 3, day := 5 } } }

/-! Helper lemmas shared by several claims. -/

/-- A truthy optional field keeps its own value under a JS default. -/
theorem jsOr_of_truthy (o : Option String) (d : String) (h : truthy o = true) :
    jsOr o d = jstr o := by
  cases o with
  | none => simp [truthy] at h
  | some s =>
      simp only [truthy, Bool.not_eq_true'] at h
      simp [jsOr, jstr, h]

/-- A truthy optional field yields a non-empty string. -/
theorem jstr_isEmpty_of_truthy (o : Option String) (h : truthy o = true) :
    (jstr o).isEmpty = false := by
  cases o with
  | none => simp [truthy] at h
  | some s =>
      simp only [truthy, Bool.not_eq_true'] at h
      simpa [jstr] using h

/-- A non-truthy optional field takes the JS default. -/
theorem jsOr_of_not_truthy (o : Option String) {d : String}
    (h : truthy o = false) : jsOr o d = d := by
  cases o with
  | none => rfl
  | some s =>
      simp only [truthy] at h
      cases hs : s.isEmpty with
      | true => simp [jsOr, hs]
      | false => simp [hs] at h

/-- If the JS-defaulted value of a field is non-empty then the field was
truthy. -/
theorem truthy_of_jsOr_ne_empty (o : Option String)
    (h : (jsOr o "").isEmpty = false) : truthy o = true := by
  cases o with
  | none => exact absurd h (by decide)
  | some s =>
      by_cases hs : s.isEmpty
      · simp only [jsOr, if_pos hs] at h
        exact absurd h (by decide)
      · simp [truthy, hs]

/-- Re-defaulting an already JS-defaulted string is the identity
(source line 116 defaults `clickLink` a second time). -/
theorem jsOr_redefault (o : Option String) :
    (if (jsOr o "").isEmpty then "" else jsOr o "") = jsOr o "" := by
  cases o with
  | none => simp [jsOr]
  | some s =>
      by_cases hs : s.isEmpty
      · simp [jsOr, hs]
      · simp [jsOr, hs]

/-- When the pipeline reaches it with a successful token exchange and a
non-empty image URL, `sendVisibleNotification` produces exactly the token
logs, the dispatch log, and the gateway POST. -/
theorem send_ok_with_image (sa : ServiceAccount) (tokens : Tokens)
    (userId fcmToken status subjectName date imageUrl clickLink : String)
    (himg : imageUrl.isEmpty = false) :
    sendVisibleNotification sa (Except.ok tokens) userId fcmToken status
      subjectName date imageUrl clickLink =
      [Effect.log "🔄 Getting access token...",
       Effect.log "✅ Access token obtained",
       Effect.log ("🖼️ Sending data-only message with image: " ++ imageUrl),
       Effect.httpPost
         { hostname := "fcm.googleapis.com"
           path := "/v1/projects/" ++ sa.project_id ++ "/messages:send"
           authorization := "Bearer " ++ tokens.access_token
           message :=
             { token := fcmToken
               data :=
                 { title := "Attendance Update"
                   body := "Marked " ++ status ++ " for " ++ subjectName ++
                     " on " ++ date
                   image := imageUrl
                   link := if clickLink.isEmpty then "" else clickLink }
               androidPriority := "high" } }] := by
  simp [sendVisibleNotification, himg]

/-- If `sendVisibleNotification` issues a POST, its image URL argument was
non-empty. -/
theorem send_post_imp_image (sa : ServiceAccount) (auth : Except String Tokens)
    (userId fcmToken status subjectName date imageUrl clickLink : String)
    (h : (sendVisibleNotification sa auth userId fcmToken status subjectName
      date imageUrl clickLink).any Effect.isPost = true) :
    imageUrl.isEmpty = false := by
  unfold sendVisibleNotification at h
  cases auth with
  | error e => simp [Effect.isPost] at h
  | ok tokens =>
      cases hi : imageUrl.isEmpty with
      | true => simp [hi, Effect.isPost] at h
      | false => rfl

/-- A failed token exchange makes `sendVisibleNotification` log the catch
line and issue no POST. -/
theorem send_error (sa : ServiceAccount) (e : String)
    (userId fcmToken status subjectName date imageUrl clickLink : String) :
    sendVisibleNotification sa (Except.error e) userId fcmToken status
      subjectName date imageUrl clickLink =
      [Effect.log "🔄 Getting access token...",
       Effect.logError ("❌ Error sending notification to " ++ userId ++
         ": " ++ e)] := by
  simp [sendVisibleNotification]

/-- When the record is complete and the recipient exists with a token, the
handler reduces to its notification log followed by the delivery call. -/
theorem handleChange_eq_send (db : DB) (sa : ServiceAccount)
    (auth : Except String Tokens) (now : SDate) (change : Change) (u : UserDoc)
    (hty : change.type = "added")
    (hu : truthy change.doc.uid = true)
    (hs : truthy change.doc.subjectId = true)
    (hst : truthy change.doc.status = true)
    (huser : db.users (jstr change.doc.uid) = some u)
    (htok : truthy u.fcmToken = true) :
    handleChange db sa auth now change =
      Effect.log ("🔔 New notification for " ++ jstr change.doc.uid ++ ": " ++
        jstr change.doc.status ++ " - " ++ jstr change.doc.subjectId) ::
      sendVisibleNotification sa auth (jstr change.doc.uid) (jstr u.fcmToken)
        (jstr change.doc.status)
        (resolveSubjectName db (jstr change.doc.uid) (jstr change.doc.subjectId))
        (formatEnIN (change.doc.dateTime.getD now))
        (jsOr u.image_1 "") (jsOr u.link_1 "") := by
  simp [handleChange, hty, hu, hs, hst, huser, htok]

/-- Under complete data, a found recipient with a truthy token and a truthy
image, and a successful token exchange, the handler issues exactly the one
gateway POST, fully characterised. -/
theorem handleChange_posts (db : DB) (sa : ServiceAccount) (tokens : Tokens)
    (now : SDate) (change : Change) (u : UserDoc)
    (hty : change.type = "added")
    (hu : truthy change.doc.uid = true)
    (hs : truthy change.doc.subjectId = true)
    (hst : truthy change.doc.status = true)
    (huser : db.users (jstr change.doc.uid) = some u)
    (htok : truthy u.fcmToken = true)
    (himg : truthy u.image_1 = true) :
    postsOf (handleChange db sa (Except.ok tokens) now change) =
      [{ hostname := "fcm.googleapis.com"
         path := "/v1/projects/" ++ sa.project_id ++ "/messages:send"
         authorization := "Bearer " ++ tokens.access_token
         message :=
           { token := jstr u.fcmToken
             data :=
               { title := "Attendance Update"
                 body := "Marked " ++ jstr change.doc.status ++ " for " ++
                   resolveSubjectName db (jstr change.doc.uid)
                     (jstr change.doc.subjectId) ++
                   " on " ++ formatEnIN (change.doc.dateTime.getD now)
                 image := jstr u.image_1
                 link := jsOr u.link_1 "" }
             androidPriority := "high" } }] := by
  have himgne : (jsOr u.image_1 "").isEmpty = false := by
    rw [jsOr_of_truthy _ _ himg]
    exact jstr_isEmpty_of_truthy _ himg
  rw [handleChange_eq_send db sa (Except.ok tokens) now change u hty hu hs hst
    huser htok]
  rw [send_ok_with_image _ _ _ _ _ _ _ _ _ himgne]
  rw [jsOr_of_truthy _ _ himg, jsOr_redefault]
  rfl

/-- C1: an added-change event leads to a gateway POST only when the record
fields `uid`, `subjectId`, `status` are all truthy and the recipient user
document exists with a truthy `fcmToken` and a truthy `image_1`; every
branch that misses one of these returns without building or sending a
message, and the handler is total (no error is raised). -/
theorem c1_post_requires_complete_data (db : DB) (sa : ServiceAccount)
    (auth : Except String Tokens) (now : SDate) (change : Change)
    (h : (handleChange db sa auth now change).any Effect.isPost = true) :
    change.type = "added" ∧ truthy change.doc.uid = true ∧
    truthy change.doc.subjectId = true ∧ truthy change.doc.status = true ∧
    ∃ u, db.users (jstr change.doc.uid) = some u ∧
      truthy u.fcmToken = true ∧ truthy u.image_1 = true := by
  by_cases hty : change.type = "added"
  case neg => simp [handleChange, hty] at h
  case pos =>
  cases hu : truthy change.doc.uid with
  | false => simp [handleChange, hty, hu] at h
  | true =>
  cases hs : truthy change.doc.subjectId with
  | false => simp [handleChange, hty, hu, hs] at h
  | true =>
  cases hst : truthy change.doc.status with
  | false => simp [handleChange, hty, hu, hs, hst] at h
  | true =>
  cases huser : db.users (jstr change.doc.uid) with
  | none => simp [handleChange, hty, hu, hs, hst, huser, Effect.isPost] at h
  | some u =>
  cases htok : truthy u.fcmToken with
  | false =>
      simp [handleChange, hty, hu, hs, hst, huser, htok, Effect.isPost] at h
  | true =>
      rw [handleChange_eq_send db sa auth now change u hty hu hs hst huser
        htok] at h
      simp only [List.any_cons, Effect.isPost, Bool.false_or] at h
      have himg := send_post_imp_image _ _ _ _ _ _ _ _ _ h
      exact ⟨hty, rfl, rfl, rfl, u, rfl, htok, truthy_of_jsOr_ne_empty _ himg⟩

/-- Witness for C1 at the concrete scenario fixture. -/
theorem c1_post_requires_complete_data_witness :
    exChange.type = "added" ∧ truthy exChange.doc.uid = true ∧
    truthy exChange.doc.subjectId = true ∧
    truthy exChange.doc.status = true ∧
    ∃ u, exDB.users (jstr exChange.doc.uid) = some u ∧
      truthy u.fcmToken = true ∧ truthy u.image_1 = true :=
  c1_post_requires_complete_data exDB exSA (Except.ok exTokens) exNow exChange
    (by decide)

/-- C2: for a complete record whose recipient exists with a truthy push
token and a truthy image, a successful token exchange leads to exactly one
gateway POST, and that POST carries the recipient token and image URL. -/
theorem c2_exactly_one_post (db : DB) (sa : ServiceAccount) (tokens : Tokens)
    (now : SDate) (change : Change) (u : UserDoc)
    (hty : change.type = "added")
    (hu : truthy change.doc.uid = true)
    (hs : truthy change.doc.subjectId = true)
    (hst : truthy change.doc.status = true)
    (huser : db.users (jstr change.doc.uid) = some u)
    (htok : truthy u.fcmToken = true)
    (himg : truthy u.image_1 = true) :
    (postsOf (handleChange db sa (Except.ok tokens) now change)).length = 1 ∧
    ∀ r ∈ postsOf (handleChange db sa (Except.ok tokens) now change),
      r.message.token = jstr u.fcmToken ∧
      r.message.data.image = jstr u.image_1 := by
  rw [handleChange_posts db sa tokens now change u hty hu hs hst huser htok
    himg]
  refine ⟨rfl, ?_⟩
  intro r hr
  simp only [List.mem_singleton] at hr
  subst hr
  exact ⟨rfl, rfl⟩

/-- Witness for C2 at the concrete scenario fixture. -/
theorem c2_exactly_one_post_witness :
    (postsOf (handleChange exDB exSA (Except.ok exTokens) exNow
      exChange)).length = 1 ∧
    ∀ r ∈ postsOf (handleChange exDB exSA (Except.ok exTokens) exNow exChange),
      r.message.token = jstr exUser.fcmToken ∧
      r.message.data.image = jstr exUser.image_1 :=
  c2_exactly_one_post exDB exSA exTokens exNow exChange exUser rfl (by decide)
    (by decide) (by decide) (by decide) (by decide) (by decide)

/-- C8: an added change whose record has a falsy `uid`, `subjectId` or
`status` produces no effects at all, for every database and environment:
nothing is logged, no lookup result can influence the outcome, and no
dispatch occurs. -/
theorem c8_malformed_silently_ignored (change : Change)
    (h : truthy change.doc.uid = false ∨ truthy change.doc.subjectId = false ∨
      truthy change.doc.status = false) :
    ∀ (db : DB) (sa : ServiceAccount) (auth : Except String Tokens)
      (now : SDate), handleChange db sa auth now change = [] := by
  intro db sa auth now
  have hcond : (!truthy change.doc.uid || !truthy change.doc.subjectId ||
      !truthy change.doc.status) = true := by
    rcases h with h | h | h <;> simp [h]
  by_cases hty : change.type = "added" <;> simp [handleChange, hty, hcond]

/-- Witness for C8 at a record missing its status. -/
theorem c8_malformed_silently_ignored_witness :
    handleChange exDB exSA (Except.ok exTokens) exNow exChangeNoStatus = [] :=
  c8_malformed_silently_ignored exChangeNoStatus
    (Or.inr (Or.inr (by decide))) exDB exSA (Except.ok exTokens) exNow

/-- With a successful token exchange but an empty image URL,
`sendVisibleNotification` logs the token acquisition and then the skip
line, issuing no POST. -/
theorem send_ok_no_image (sa : ServiceAccount) (tokens : Tokens)
    (userId fcmToken status subjectName date imageUrl clickLink : String)
    (himg : imageUrl.isEmpty = true) :
    sendVisibleNotification sa (Except.ok tokens) userId fcmToken status
      subjectName date imageUrl clickLink =
      [Effect.log "🔄 Getting access token...",
       Effect.log "✅ Access token obtained",
       Effect.log "⚠️ No image available, skipping notification"] := by
  simp [sendVisibleNotification, himg]

/-- C3, counterexample: at a concrete event whose recipient has no image,
the token-acquisition log line is emitted (and with a failing exchange the
catch line replaces the skip line), so bearer-token acquisition does take
place before the image-required check, contrary to the claimed ordering. -/
theorem c3_counterexample :
    Effect.log "✅ Access token obtained" ∈
      handleChange exDBNoImg exSA (Except.ok exTokens) exNow exChange ∧
    (handleChange exDBNoImg exSA (Except.ok exTokens) exNow
      exChange).any Effect.isPost = false ∧
    handleChange exDBNoImg exSA (Except.error "boom") exNow exChange =
      [Effect.log "🔔 New notification for u1: Present - s1",
       Effect.log "🔄 Getting access token...",
       Effect.logError "❌ Error sending notification to u1: boom"] := by
  decide

/-- C3, amended: the stages run as enrichment, then bearer-token
acquisition, then composition (whose image-required check aborts before
dispatch); for an event whose recipient image is empty, token acquisition
still takes place and the event then aborts with the skip log, without a
POST. -/
theorem c3_token_before_image_check (db : DB) (sa : ServiceAccount)
    (tokens : Tokens) (now : SDate) (change : Change) (u : UserDoc)
    (hty : change.type = "added")
    (hu : truthy change.doc.uid = true)
    (hs : truthy change.doc.subjectId = true)
    (hst : truthy change.doc.status = true)
    (huser : db.users (jstr change.doc.uid) = some u)
    (htok : truthy u.fcmToken = true)
    (himg : truthy u.image_1 = false) :
    handleChange db sa (Except.ok tokens) now change =
      [Effect.log ("🔔 New notification for " ++ jstr change.doc.uid ++ ": " ++
         jstr change.doc.status ++ " - " ++ jstr change.doc.subjectId),
       Effect.log "🔄 Getting access token...",
       Effect.log "✅ Access token obtained",
       Effect.log "⚠️ No image available, skipping notification"] := by
  rw [handleChange_eq_send db sa (Except.ok tokens) now change u hty hu hs hst
    huser htok]
  rw [jsOr_of_not_truthy _ himg]
  rw [send_ok_no_image _ _ _ _ _ _ _ _ _ (by decide)]

/-- Witness for the amended C3 at the no-image fixture. -/
theorem c3_token_before_image_check_witness :
    handleChange exDBNoImg exSA (Except.ok exTokens) exNow exChange =
      [Effect.log "🔔 New notification for u1: Present - s1",
       Effect.log "🔄 Getting access token...",
       Effect.log "✅ Access token obtained",
       Effect.log "⚠️ No image available, skipping notification"] :=
  c3_token_before_image_check exDBNoImg exSA exTokens exNow exChange
    exUserNoImg rfl (by decide) (by decide) (by decide) (by decide)
    (by decide) (by decide)

/-- C4: the dispatched payload is exactly the data-only shape built at
source lines 109-122 — token, a `data` map with the constant title
"Attendance Update", the interpolated body, the image URL and the link
(empty when the recipient has no `link_1`), and Android priority `high`;
the embedded message type carries no notification payload field at all. -/
theorem c4_payload_shape (db : DB) (sa : ServiceAccount) (tokens : Tokens)
    (now : SDate) (change : Change) (u : UserDoc)
    (hty : change.type = "added")
    (hu : truthy change.doc.uid = true)
    (hs : truthy change.doc.subjectId = true)
    (hst : truthy change.doc.status = true)
    (huser : db.users (jstr change.doc.uid) = some u)
    (htok : truthy u.fcmToken = true)
    (himg : truthy u.image_1 = true) :
    postsOf (handleChange db sa (Except.ok tokens) now change) =
      [{ hostname := "fcm.googleapis.com"
         path := "/v1/projects/" ++ sa.project_id ++ "/messages:send"
         authorization := "Bearer " ++ tokens.access_token
         message :=
           { token := jstr u.fcmToken
             data :=
               { title := "Attendance Update"
                 body := "Marked " ++ jstr change.doc.status ++ " for " ++
                   resolveSubjectName db (jstr change.doc.uid)
                     (jstr change.doc.subjectId) ++
                   " on " ++ formatEnIN (change.doc.dateTime.getD now)
                 image := jstr u.image_1
                 link := jsOr u.link_1 "" }
             androidPriority := "high" } }] ∧
    (u.link_1 = none → jsOr u.link_1 "" = "") := by
  refine ⟨handleChange_posts db sa tokens now change u hty hu hs hst huser
    htok himg, ?_⟩
  intro hnone
  rw [hnone]
  rfl

/-- Witness for C4 at the concrete scenario fixture. -/
theorem c4_payload_shape_witness :
    postsOf (handleChange exDB exSA (Except.ok exTokens) exNow exChange) =
      [{ hostname := "fcm.googleapis.com"
         path := "/v1/projects/" ++ exSA.project_id ++ "/messages:send"
         authorization := "Bearer " ++ exTokens.access_token
         message :=
           { token := jstr exUser.fcmToken
             data :=
               { title := "Attendance Update"
                 body := "Marked " ++ jstr exChange.doc.status ++ " for " ++
                   resolveSubjectName exDB (jstr exChange.doc.uid)
                     (jstr exChange.doc.subjectId) ++
                   " on " ++ formatEnIN (exChange.doc.dateTime.getD exNow)
                 image := jstr exUser.image_1
                 link := jsOr exUser.link_1 "" }
             androidPriority := "high" } }] ∧
    (exUser.link_1 = none → jsOr exUser.link_1 "" = "") :=
  c4_payload_shape exDB exSA exTokens exNow exChange exUser rfl (by decide)
    (by decide) (by decide) (by decide) (by decide) (by decide)

/-- C5: subject-name resolution uses the subject document name when it
exists and is non-empty, and falls back to the raw subjectId when the
document is absent or its name is empty; the lookup miss is non-fatal —
the dispatch still happens and the resolved name appears in the body. -/
theorem c5_subject_name_resolution (db : DB) (sa : ServiceAccount)
    (tokens : Tokens) (now : SDate) (change : Change) (u : UserDoc)
    (hty : change.type = "added")
    (hu : truthy change.doc.uid = true)
    (hs : truthy change.doc.subjectId = true)
    (hst : truthy change.doc.status = true)
    (huser : db.users (jstr change.doc.uid) = some u)
    (htok : truthy u.fcmToken = true)
    (himg : truthy u.image_1 = true) :
    (∀ (db2 : DB) (uid sid : String) (sd : SubjectDoc),
        db2.subjects uid sid = some sd → truthy sd.name = true →
        resolveSubjectName db2 uid sid = jstr sd.name) ∧
    (∀ (db2 : DB) (uid sid : String),
        db2.subjects uid sid = none → resolveSubjectName db2 uid sid = sid) ∧
    (∀ (db2 : DB) (uid sid : String) (sd : SubjectDoc),
        db2.subjects uid sid = some sd → truthy sd.name = false →
        resolveSubjectName db2 uid sid = sid) ∧
    (postsOf (handleChange db sa (Except.ok tokens) now change)).length = 1 ∧
    ∀ r ∈ postsOf (handleChange db sa (Except.ok tokens) now change),
      r.message.data.body = "Marked " ++ jstr change.doc.status ++ " for " ++
        resolveSubjectName db (jstr change.doc.uid)
          (jstr change.doc.subjectId) ++
        " on " ++ formatEnIN (change.doc.dateTime.getD now) := by
  have hposts := handleChange_posts db sa tokens now change u hty hu hs hst
    huser htok himg
  refine ⟨?_, ?_, ?_, ?_, ?_⟩
  · intro db2 uid sid sd hlook hname
    unfold resolveSubjectName
    rw [hlook]
    exact jsOr_of_truthy _ _ hname
  · intro db2 uid sid hlook
    unfold resolveSubjectName
    rw [hlook]
  · intro db2 uid sid sd hlook hname
    unfold resolveSubjectName
    rw [hlook]
    exact jsOr_of_not_truthy _ hname
  · rw [hposts]
    rfl
  · rw [hposts]
    intro r hr
    simp only [List.mem_singleton] at hr
    subst hr
    rfl

/-- Witness for C5 at a database where the subject document is missing:
the dispatch still happens and the raw subjectId stands in. -/
theorem c5_subject_name_resolution_witness :
    (∀ (db2 : DB) (uid sid : String) (sd : SubjectDoc),
        db2.subjects uid sid = some sd → truthy sd.name = true →
        resolveSubjectName db2 uid sid = jstr sd.name) ∧
    (∀ (db2 : DB) (uid sid : String),
        db2.subjects uid sid = none → resolveSubjectName db2 uid sid = sid) ∧
    (∀ (db2 : DB) (uid sid : String) (sd : SubjectDoc),
        db2.subjects uid sid = some sd → truthy sd.name = false →
        resolveSubjectName db2 uid sid = sid) ∧
    (postsOf (handleChange exDBNoSubject exSA (Except.ok exTokens) exNow
      exChange)).length = 1 ∧
    ∀ r ∈ postsOf (handleChange exDBNoSubject exSA (Except.ok exTokens) exNow
      exChange),
      r.message.data.body = "Marked " ++ jstr exChange.doc.status ++ " for " ++
        resolveSubjectName exDBNoSubject (jstr exChange.doc.uid)
          (jstr exChange.doc.subjectId) ++
        " on " ++ formatEnIN (exChange.doc.dateTime.getD exNow) :=
  c5_subject_name_resolution exDBNoSubject exSA exTokens exNow exChange exUser
    rfl (by decide) (by decide) (by decide) (by decide) (by decide) (by decide)

/-- C6: the record timestamp is formatted as two-digit day, abbreviated
month, numeric year (2024-03-05 renders as "05 Mar 2024"), the composed
body carries the formatted value of the record timestamp defaulted to the
current wall-clock time, and with no record timestamp the current time is
the one formatted. -/
theorem c6_date_formatting (db : DB) (sa : ServiceAccount) (tokens : Tokens)
    (now : SDate) (change : Change) (u : UserDoc)
    (hty : change.type = "added")
    (hu : truthy change.doc.uid = true)
    (hs : truthy change.doc.subjectId = true)
    (hst : truthy change.doc.status = true)
    (huser : db.users (jstr change.doc.uid) = some u)
    (htok : truthy u.fcmToken = true)
    (himg : truthy u.image_1 = true) :
    formatEnIN { year := 2024, month := 3, day := 5 } = "05 Mar 2024" ∧
    (∀ r ∈ postsOf (handleChange db sa (Except.ok tokens) now change),
       r.message.data.body = "Marked " ++ jstr change.doc.status ++ " for " ++
         resolveSubjectName db (jstr change.doc.uid)
           (jstr change.doc.subjectId) ++
         " on " ++ formatEnIN (change.doc.dateTime.getD now)) ∧
    (change.doc.dateTime = none →
       ∀ r ∈ postsOf (handleChange db sa (Except.ok tokens) now change),
         r.message.data.body = "Marked " ++ jstr change.doc.status ++
           " for " ++ resolveSubjectName db (jstr change.doc.uid)
             (jstr change.doc.subjectId) ++
           " on " ++ formatEnIN now) := by
  have hposts := handleChange_posts db sa tokens now change u hty hu hs hst
    huser htok himg
  refine ⟨by decide, ?_, ?_⟩
  · rw [hposts]
    intro r hr
    simp only [List.mem_singleton] at hr
    subst hr
    rfl
  · intro hnone
    rw [hposts]
    intro r hr
    simp only [List.mem_singleton] at hr
    subst hr
    simp only [hnone, Option.getD_none]

/-- Witness for C6 at the fixture whose record carries the timestamp
2024-03-05. -/
theorem c6_date_formatting_witness :
    formatEnIN { year := 2024, month := 3, day := 5 } = "05 Mar 2024" ∧
    (∀ r ∈ postsOf (handleChange exDB exSA (Except.ok exTokens) exNow
      exChangeWithDate),
       r.message.data.body = "Marked " ++ jstr exChangeWithDate.doc.status ++
         " for " ++ resolveSubjectName exDB (jstr exChangeWithDate.doc.uid)
           (jstr exChangeWithDate.doc.subjectId) ++
         " on " ++ formatEnIN (exChangeWithDate.doc.dateTime.getD exNow)) ∧
    (exChangeWithDate.doc.dateTime = none →
       ∀ r ∈ postsOf (handleChange exDB exSA (Except.ok exTokens) exNow
         exChangeWithDate),
         r.message.data.body = "Marked " ++ jstr exChangeWithDate.doc.status ++
           " for " ++ resolveSubjectName exDB (jstr exChangeWithDate.doc.uid)
             (jstr exChangeWithDate.doc.subjectId) ++
           " on " ++ formatEnIN exNow) :=
  c6_date_formatting exDB exSA exTokens exNow exChangeWithDate exUser rfl
    (by decide) (by decide) (by decide) (by decide) (by decide) (by decide)

/-- C7: the response callback classifies status 200 as success (one success
log carrying the recipient id), any other status as a delivery failure (one
log carrying the status code and response body), and a transport error as
one error log; in every case it emits exactly one log line and no further
request, and it raises nothing. -/
theorem c7_response_classification (userId : String) (res : GatewayResponse)
    (e : String) :
    classifyResponse userId (TransportOutcome.response res) =
      (if res.statusCode = 200 then
        [Effect.log ("✅ Data message sent to " ++ userId)]
      else
        [Effect.log ("❌ FCM Error Status: " ++ toString res.statusCode ++
          ", Response: " ++ res.body)]) ∧
    classifyResponse userId (TransportOutcome.transportError e) =
      [Effect.logError ("❌ FCM Request failed for " ++ userId ++ ": " ++ e)] ∧
    ∀ o : TransportOutcome,
      (classifyResponse userId o).all Effect.isLogLine = true ∧
      (classifyResponse userId o).length = 1 := by
  refine ⟨rfl, rfl, ?_⟩
  intro o
  cases o with
  | response r =>
      by_cases h : r.statusCode = 200 <;>
        simp [classifyResponse, h, Effect.isLogLine]
  | transportError e2 => simp [classifyResponse, Effect.isLogLine]

/-- C9: a failed token exchange never leads to a gateway POST, is logged by
the catch of the delivery function whenever the pipeline reaches it, and is
local to its event — the batch loop processes every change independently
and concatenates their effects. -/
theorem c9_token_failure_is_local (db : DB) (sa : ServiceAccount)
    (now : SDate) (change : Change) (u : UserDoc) (e : String)
    (hty : change.type = "added")
    (hu : truthy change.doc.uid = true)
    (hs : truthy change.doc.subjectId = true)
    (hst : truthy change.doc.status = true)
    (huser : db.users (jstr change.doc.uid) = some u)
    (htok : truthy u.fcmToken = true) :
    (∀ (db2 : DB) (sa2 : ServiceAccount) (now2 : SDate) (change2 : Change)
        (e2 : String),
        (handleChange db2 sa2 (Except.error e2) now2 change2).any
          Effect.isPost = false) ∧
    Effect.logError ("❌ Error sending notification to " ++
      jstr change.doc.uid ++ ": " ++ e) ∈
      handleChange db sa (Except.error e) now change ∧
    (∀ (auth : Except String Tokens) (c : Change) (cs : List Change),
        processSnapshot db sa auth now (c :: cs) =
          handleChange db sa auth now c ++ processSnapshot db sa auth now cs) := by
  refine ⟨?_, ?_, ?_⟩
  · intro db2 sa2 now2 change2 e2
    by_cases hty2 : change2.type = "added"
    case neg => simp [handleChange, hty2]
    case pos =>
    cases hu2 : truthy change2.doc.uid with
    | false => simp [handleChange, hty2, hu2]
    | true =>
    cases hs2 : truthy change2.doc.subjectId with
    | false => simp [handleChange, hty2, hu2, hs2]
    | true =>
    cases hst2 : truthy change2.doc.status with
    | false => simp [handleChange, hty2, hu2, hs2, hst2]
    | true =>
    cases huser2 : db2.users (jstr change2.doc.uid) with
    | none =>
        simp [handleChange, hty2, hu2, hs2, hst2, huser2, Effect.isPost]
    | some u2 =>
    cases htok2 : truthy u2.fcmToken with
    | false =>
        simp [handleChange, hty2, hu2, hs2, hst2, huser2, htok2,
          Effect.isPost]
    | true =>
        rw [handleChange_eq_send db2 sa2 (Except.error e2) now2 change2 u2
          hty2 hu2 hs2 hst2 huser2 htok2]
        rw [send_error]
        simp [Effect.isPost]
  · rw [handleChange_eq_send db sa (Except.error e) now change u hty hu hs hst
      huser htok]
    rw [send_error]
    simp
  · intro auth c cs
    rfl

/-- Witness for C9 at the concrete scenario fixture with exchange error
"boom". -/
theorem c9_token_failure_is_local_witness :
    (∀ (db2 : DB) (sa2 : ServiceAccount) (now2 : SDate) (change2 : Change)
        (e2 : String),
        (handleChange db2 sa2 (Except.error e2) now2 change2).any
          Effect.isPost = false) ∧
    Effect.logError ("❌ Error sending notification to " ++
      jstr exChange.doc.uid ++ ": " ++ "boom") ∈
      handleChange exDB exSA (Except.error "boom") exNow exChange ∧
    (∀ (auth : Except String Tokens) (c : Change) (cs : List Change),
        processSnapshot exDB exSA auth exNow (c :: cs) =
          handleChange exDB exSA auth exNow c ++
            processSnapshot exDB exSA auth exNow cs) :=
  c9_token_failure_is_local exDB exSA exNow exChange exUser "boom" rfl
    (by decide) (by decide) (by decide) (by decide) (by decide)

/-- C10: the transport outcome of a dispatch is consumed only by the
response callback, whose effects are nothing but log lines; the non-log
effects of a full single-event run are therefore independent of the
outcome, so success or failure of a delivery changes nothing observable by
the caller or by later events. -/
theorem c10_response_affects_only_logs (db : DB) (sa : ServiceAccount)
    (auth : Except String Tokens) (now : SDate) (change : Change)
    (o1 o2 : TransportOutcome) :
    (runPipeline db sa auth now change o1).filter
      (fun ef => !ef.isLogLine) =
    (runPipeline db sa auth now change o2).filter
      (fun ef => !ef.isLogLine) ∧
    ∀ (uid : String) (o : TransportOutcome),
      (classifyResponse uid o).all Effect.isLogLine = true := by
  have hcl : ∀ (uid : String) (o : TransportOutcome),
      (classifyResponse uid o).filter (fun ef => !ef.isLogLine) = [] := by
    intro uid o
    cases o with
    | response r =>
        by_cases h : r.statusCode = 200 <;>
          simp [classifyResponse, h, Effect.isLogLine]
    | transportError e => simp [classifyResponse, Effect.isLogLine]
  constructor
  · by_cases hp : (handleChange db sa auth now change).any Effect.isPost = true
    · simp [runPipeline, hp, List.filter_append, hcl]
    · simp [runPipeline, hp]
  · intro uid o
    cases o with
    | response r =>
        by_cases h : r.statusCode = 200 <;>
          simp [classifyResponse, h, Effect.isLogLine]
    | transportError e => simp [classifyResponse, Effect.isLogLine]

end AttendanceApp
